import Mathlib

/-!
Verification of the salon booking-intake API (FastAPI backend, `main.py` and
`schemas.py`): the `/api/book` endpoint (date coercion, pydantic-style schema
validation, persistence, ICS calendar invite), the `build_ics` formatter and
the `/test` diagnostics route, shallowly embedded in Lean.
-/

/-- A calendar timestamp, embedding Python's `datetime` values as used by the
code (year, month, day, hour, minute, second; no timezone or microseconds are
exercised by the endpoint). -/
structure DateTime where
  year : Nat
  month : Nat
  day : Nat
  hour : Nat
  minute : Nat
  second : Nat
deriving DecidableEq, Repr

/-- Gregorian leap-year rule, as in Python's `calendar`/`datetime`. -/
def isLeap (y : Nat) : Prop := (y % 4 = 0 ∧ ¬ y % 100 = 0) ∨ y % 400 = 0

instance (y : Nat) : Decidable (isLeap y) := by
  unfold isLeap; infer_instance

/-- Days in a Gregorian month, as in Python's `datetime`. -/
def daysInMonth (y m : Nat) : Nat :=
  if m = 2 then (if isLeap y then 29 else 28)
  else if m = 4 ∨ m = 6 ∨ m = 9 ∨ m = 11 then 30
  else 31

/-- Days strictly before January 1 of Gregorian year `y` (for `y ≥ 1`);
Python's `datetime._days_before_year`. -/
def daysBeforeYear (y : Nat) : Nat :=
  365 * (y - 1) + (y - 1) / 4 - (y - 1) / 100 + (y - 1) / 400

/-- Days in year `y` strictly before the first of month `m`;
Python's `datetime._days_before_month`. -/
def daysBeforeMonth (y : Nat) : Nat → Nat
  | 0 => 0
  | 1 => 0
  | n + 2 => daysBeforeMonth y (n + 1) + daysInMonth y (n + 1)

/-- Proleptic-Gregorian ordinal of a date (Python's `datetime.toordinal`). -/
def toOrd (d : DateTime) : Nat :=
  daysBeforeYear d.year + daysBeforeMonth d.year d.month + d.day

/-- A timestamp as a single count of seconds, the semantics under which
Python's `datetime + timedelta` arithmetic operates. -/
def toSeconds (d : DateTime) : Nat :=
  toOrd d * 86400 + d.hour * 3600 + d.minute * 60 + d.second

/-- A calendar-valid timestamp (what `datetime` can ever hold). -/
def validDT (d : DateTime) : Prop :=
  1 ≤ d.year ∧ 1 ≤ d.month ∧ d.month ≤ 12 ∧
  1 ≤ d.day ∧ d.day ≤ daysInMonth d.year d.month ∧
  d.hour < 24 ∧ d.minute < 60 ∧ d.second < 60

instance (d : DateTime) : Decidable (validDT d) := by
  unfold validDT; infer_instance

/-- The calendar successor of a date (time-of-day fields unchanged). -/
def nextDay (d : DateTime) : DateTime :=
  if d.day < daysInMonth d.year d.month then { d with day := d.day + 1 }
  else if d.month < 12 then { d with month := d.month + 1, day := 1 }
  else { year := d.year + 1, month := 1, day := 1,
         hour := d.hour, minute := d.minute, second := d.second }

/-- Embedding of `start + timedelta(hours=1)` (line 78 of `main.py`)
on calendar-valid timestamps. -/
def addOneHour (d : DateTime) : DateTime :=
  if d.hour + 1 < 24 then { d with hour := d.hour + 1 }
  else { nextDay d with hour := 0 }

/-- Left-pad the decimal digits of `n` with zeros to width `w`. -/
def padZ (w n : Nat) : String :=
  let s := toString n
  String.mk (List.replicate (w - s.length) '0') ++ s

/-- Embedding of `strftime('%Y%m%dT%H%M%S')` as used in `build_ics`. -/
def fmtDT (d : DateTime) : String :=
  padZ 4 d.year ++ padZ 2 d.month ++ padZ 2 d.day ++ "T" ++
  padZ 2 d.hour ++ padZ 2 d.minute ++ padZ 2 d.second

/-- Is the character an ASCII decimal digit. -/
def isDig (c : Char) : Bool := 48 ≤ c.toNat && c.toNat ≤ 57

/-- Numeric value of a decimal digit character. -/
def d2n (c : Char) : Nat := c.toNat - 48

/-- Two decimal digit characters to a number, if both are digits. -/
def dig2 (a b : Char) : Option Nat :=
  if isDig a ∧ isDig b then some (10 * d2n a + d2n b) else none

/-- Four decimal digit characters to a number, if all are digits. -/
def dig4 (a b c d : Char) : Option Nat :=
  if isDig a ∧ isDig b ∧ isDig c ∧ isDig d then
    some (1000 * d2n a + 100 * d2n b + 10 * d2n c + d2n d)
  else none

/-- Range-check parsed components exactly as `datetime` construction does
(raising `ValueError` on out-of-range fields). -/
def mkValidated (y mo da hh mi ss : Nat) : Option DateTime :=
  if 1 ≤ y ∧ 1 ≤ mo ∧ mo ≤ 12 ∧ 1 ≤ da ∧ da ≤ daysInMonth y mo ∧
     hh ≤ 23 ∧ mi ≤ 59 ∧ ss ≤ 59
  then some ⟨y, mo, da, hh, mi, ss⟩ else none

/-- Embedding of Python's `datetime.fromisoformat`, restricted to the core
grammar `YYYY-MM-DD[sHH:MM[:SS]]` (one separator character between date and
time) that every Python version accepts; fractional seconds and timezone
offsets are not exercised by the specification's inputs. -/
def fromisoformat (s : String) : Option DateTime :=
  match s.data with
  | [a, b, c, d, s1, e, f, s2, g, h] =>
    if s1 = '-' ∧ s2 = '-' then
      match dig4 a b c d, dig2 e f, dig2 g h with
      | some y, some mo, some da => mkValidated y mo da 0 0 0
      | _, _, _ => none
    else none
  | [a, b, c, d, s1, e, f, s2, g, h, _t, i, j, c1, k, l] =>
    if s1 = '-' ∧ s2 = '-' ∧ c1 = ':' then
      match dig4 a b c d, dig2 e f, dig2 g h, dig2 i j, dig2 k l with
      | some y, some mo, some da, some hh, some mi => mkValidated y mo da hh mi 0
      | _, _, _, _, _ => none
    else none
  | [a, b, c, d, s1, e, f, s2, g, h, _t, i, j, c1, k, l, c2, m, n] =>
    if s1 = '-' ∧ s2 = '-' ∧ c1 = ':' ∧ c2 = ':' then
      match dig4 a b c d, dig2 e f, dig2 g h, dig2 i j, dig2 k l, dig2 m n with
      | some y, some mo, some da, some hh, some mi, some ss =>
        mkValidated y mo da hh mi ss
      | _, _, _, _, _, _ => none
    else none
  | _ => none

/-- A JSON value of the booking payload, as far as the endpoint inspects it:
a text value or an already-typed timestamp (the two forms the specification
distinguishes for `preferred_datetime`). -/
inductive Value where
  | str (s : String)
  | dt (d : DateTime)
deriving DecidableEq, Repr

/-- The untyped request body `payload : Dict[str, Any]` of `/api/book`,
as a key/value association list with string keys. -/
abbrev Payload := List (String × Value)

/-- Python `payload.get(k)` on a dict. -/
def lookupP (p : Payload) (k : String) : Option Value :=
  match p with
  | [] => none
  | (k', v) :: rest => if k' = k then some v else lookupP rest k

/-- Python `payload[k] = v` on an existing key: replace the value stored
under `k`, leaving all other keys unchanged. -/
def setKey : Payload → String → Value → Payload
  | [], _, _ => []
  | (k', w) :: rest, k, v =>
    (k', if k' = k then v else w) :: setKey rest k v

/-- Split a character list at every occurrence of `c` (the pieces between
separators, like Python's `str.split`). -/
def splitOnChar (c : Char) : List Char → List (List Char)
  | [] => [[]]
  | x :: xs =>
    match splitOnChar c xs, decide (x = c) with
    | r, true => [] :: r
    | [], false => [[x]]
    | h :: t, false => (x :: h) :: t

/-- Modelled from the spec: the syntactic email validator behind pydantic's
`EmailStr` (the `email-validator` collaborator, not part of `src/`): an
address is a nonempty local part and a dotted, nonempty-labelled domain,
joined by a single `@`, with no spaces. -/
def isValidEmail (s : String) : Bool :=
  match splitOnChar '@' s.data with
  | [lp, dom] =>
    !lp.isEmpty && !lp.contains ' ' && !dom.contains ' ' &&
    decide (2 ≤ (splitOnChar '.' dom).length) &&
    (splitOnChar '.' dom).all (fun part => !part.isEmpty)
  | _ => false

/-- The validated `Booking` record of `schemas.py` (`service` and `status`
are `Literal` strings, checked at construction). -/
structure Booking where
  name : String
  phone : String
  email : String
  service : String
  preferred_datetime : DateTime
  notes : Option String
  status : String
deriving DecidableEq, Repr

/-- The fixed `service` enumeration of `schemas.py`. -/
def serviceLiterals : List String :=
  ["Hair Styling", "Facials", "Manicure", "Pedicure", "Bridal Makeup", "Skincare"]

/-- The fixed `status` enumeration of `schemas.py`. -/
def statusLiterals : List String := ["pending", "confirmed", "failed"]

/-- Field validator for `name : str, min_length=2, max_length=100`. -/
def vName (v : Option Value) : Except String String :=
  match v with
  | some (.str s) =>
    if s.length < 2 then .error "string_too_short"
    else if 100 < s.length then .error "string_too_long"
    else .ok s
  | some _ => .error "string_type"
  | none => .error "missing"

/-- Field validator for `phone : str, min_length=7, max_length=20`. -/
def vPhone (v : Option Value) : Except String String :=
  match v with
  | some (.str s) =>
    if s.length < 7 then .error "string_too_short"
    else if 20 < s.length then .error "string_too_long"
    else .ok s
  | some _ => .error "string_type"
  | none => .error "missing"

/-- Field validator for `email : EmailStr`. -/
def vEmail (v : Option Value) : Except String String :=
  match v with
  | some (.str s) => if isValidEmail s then .ok s else .error "value_error"
  | some _ => .error "string_type"
  | none => .error "missing"

/-- Field validator for the `service` literal enumeration. -/
def vService (v : Option Value) : Except String String :=
  match v with
  | some (.str s) => if serviceLiterals.contains s then .ok s else .error "literal_error"
  | some _ => .error "literal_error"
  | none => .error "missing"

/-- Field validator for `preferred_datetime : datetime` (a typed timestamp;
pydantic itself also parses ISO text, which the endpoint has already coerced
by the time construction runs). -/
def vPD (v : Option Value) : Except String DateTime :=
  match v with
  | some (.dt d) => .ok d
  | some (.str s) =>
    match fromisoformat s with
    | some d => .ok d
    | none => .error "datetime_parsing"
  | none => .error "missing"

/-- Field validator for `notes : Optional[str], max_length=1000`
(defaults to `None` when absent). -/
def vNotes (v : Option Value) : Except String (Option String) :=
  match v with
  | some (.str s) => if 1000 < s.length then .error "string_too_long" else .ok (some s)
  | some _ => .error "string_type"
  | none => .ok none

/-- Field validator for the `status` literal enumeration
(defaults to `"pending"` when absent). -/
def vStatus (v : Option Value) : Except String String :=
  match v with
  | some (.str s) => if statusLiterals.contains s then .ok s else .error "literal_error"
  | some _ => .error "literal_error"
  | none => .ok "pending"

/-- The singleton error entry `(field, type)` contributed by a failed
field validator, empty when the field validated. -/
def eo {α : Type} (k : String) (r : Except String α) : List (String × String) :=
  match r with
  | .error t => [(k, t)]
  | .ok _ => []

/-- The aggregated pydantic `ValidationError.errors()` list: one entry per
violating field, in declaration order — all fields are checked, not just
the first failure. -/
def fieldErrors (p : Payload) : List (String × String) :=
  eo "name" (vName (lookupP p "name")) ++
  eo "phone" (vPhone (lookupP p "phone")) ++
  eo "email" (vEmail (lookupP p "email")) ++
  eo "service" (vService (lookupP p "service")) ++
  eo "preferred_datetime" (vPD (lookupP p "preferred_datetime")) ++
  eo "notes" (vNotes (lookupP p "notes")) ++
  eo "status" (vStatus (lookupP p "status"))

/-- The successful value of a field validator (the default is never reached
when the validator succeeded). -/
def okD {α : Type} (r : Except String α) (d : α) : α :=
  match r with
  | .ok a => a
  | .error _ => d

/-- Embedding of `Booking(**payload)` (pydantic model construction as invoked
on line 118 of `main.py`): every field is validated, and either all succeed
and the record is built from the validated values — unknown payload keys are
ignored, per pydantic's default `extra='ignore'` — or construction fails with
the aggregated per-field error list. -/
def mkBooking (p : Payload) : Except (List (String × String)) Booking :=
  match fieldErrors p with
  | [] =>
    .ok { name := okD (vName (lookupP p "name")) "",
          phone := okD (vPhone (lookupP p "phone")) "",
          email := okD (vEmail (lookupP p "email")) "",
          service := okD (vService (lookupP p "service")) "",
          preferred_datetime := okD (vPD (lookupP p "preferred_datetime")) ⟨1, 1, 1, 0, 0, 0⟩,
          notes := okD (vNotes (lookupP p "notes")) none,
          status := okD (vStatus (lookupP p "status")) "pending" }
  | errs => .error errs

/-- Embedding of `build_ics` (lines 75–102 of `main.py`); `now` is the
`datetime.utcnow()` reading taken during formatting. -/
def build_ics (now : DateTime) (booking : Booking) : String :=
  let start := booking.preferred_datetime
  let endT := addOneHour start
  let start_str := fmtDT start
  let end_str := fmtDT endT
  let now_str := fmtDT now ++ "Z"
  let uid := "booking-" ++ start_str ++ "-" ++ booking.email
  let summary := "Appointment: " ++ booking.service ++ " - Alankritha Naturals"
  let description := "Name: " ++ booking.name ++ "\\nPhone: " ++ booking.phone ++
                     "\\nNotes: " ++ (booking.notes.getD "")
  let location := "Alankritha Naturals, Hyderabad"
  "BEGIN:VCALENDAR\n" ++
  "VERSION:2.0\n" ++
  "PRODID:-//Alankritha Naturals//Booking//EN\n" ++
  "BEGIN:VEVENT\n" ++
  "UID:" ++ uid ++ "\n" ++
  "DTSTAMP:" ++ now_str ++ "\n" ++
  "DTSTART:" ++ start_str ++ "\n" ++
  "DTEND:" ++ end_str ++ "\n" ++
  "SUMMARY:" ++ summary ++ "\n" ++
  "DESCRIPTION:" ++ description ++ "\n" ++
  "LOCATION:" ++ location ++ "\n" ++
  "END:VEVENT\n" ++
  "END:VCALENDAR\n"

/-- The `UID` value of the invite: a function of the start timestamp and the
booking's email only (line 82 of `main.py`). -/
def icsUid (b : Booking) : String :=
  "booking-" ++ fmtDT b.preferred_datetime ++ "-" ++ b.email

/-- The invite text up to and including the `UID` line — everything that
precedes the `DTSTAMP` line; a function of the booking only. -/
def icsHead (b : Booking) : String :=
  "BEGIN:VCALENDAR\n" ++
  "VERSION:2.0\n" ++
  "PRODID:-//Alankritha Naturals//Booking//EN\n" ++
  "BEGIN:VEVENT\n" ++
  "UID:" ++ icsUid b ++ "\n"

/-- The invite text from `SUMMARY` to the end; a function of the booking only. -/
def icsRest (b : Booking) : String :=
  "SUMMARY:" ++ ("Appointment: " ++ b.service ++ " - Alankritha Naturals") ++ "\n" ++
  "DESCRIPTION:" ++ ("Name: " ++ b.name ++ "\\nPhone: " ++ b.phone ++
                     "\\nNotes: " ++ (b.notes.getD "")) ++ "\n" ++
  "LOCATION:" ++ "Alankritha Naturals, Hyderabad" ++ "\n" ++
  "END:VEVENT\n" ++
  "END:VCALENDAR\n"

/-- The invite text after the `DTSTAMP` line: the `DTSTART` and `DTEND` lines
followed by `icsRest`; a function of the booking only. -/
def icsTail (b : Booking) : String :=
  "DTSTART:" ++ fmtDT b.preferred_datetime ++ "\n" ++
  ("DTEND:" ++ fmtDT (addOneHour b.preferred_datetime) ++ "\n") ++
  icsRest b

/-- The HTTP outcome of `POST /api/book`: the success JSON, or one of the
three `HTTPException` kinds raised by `create_booking`, each carrying its
`detail`. -/
inductive BookResp where
  | success (booking_id : String) (ics : String)
  | badDate (detail : String)
  | validationErr (detail : List (String × String))
  | dbError (detail : String)
deriving DecidableEq, Repr

/-- The HTTP status code each outcome is surfaced with. -/
def statusCode (r : BookResp) : Nat :=
  match r with
  | .success _ _ => 200
  | .badDate _ => 400
  | .validationErr _ => 422
  | .dbError _ => 500

/-- The pre-validation coercion step of `create_booking` (lines 112–116): if
`preferred_datetime` is present as text, parse it as ISO 8601 and store the
typed timestamp back into the payload; unparsable text raises the fixed
400 error; any other shape of the field is left to schema validation. -/
def coerceDT (p : Payload) : Except String Payload :=
  match lookupP p "preferred_datetime" with
  | some (.str s) =>
    match fromisoformat s with
    | some d => .ok (setKey p "preferred_datetime" (.dt d))
    | none => .error "Invalid preferred_datetime format. Use ISO 8601."
  | _ => .ok p

/-- Embedding of the `/api/book` handler `create_booking` (lines 104–134 of
`main.py`): coerce the datetime, construct the `Booking`, persist it through
the storage collaborator `db` (the opaque `create_document("booking", ·)`,
which returns a new identifier or raises), and respond with the identifier
and the ICS invite built at wall-clock time `now`. -/
def create_booking (db : Booking → Except String String) (now : DateTime)
    (payload : Payload) : BookResp :=
  match coerceDT payload with
  | .error msg => .badDate msg
  | .ok p =>
    match mkBooking p with
    | .error errs => .validationErr errs
    | .ok booking =>
      match db booking with
      | .error e => .dbError ("Database error: " ++ e)
      | .ok booking_id => .success booking_id (build_ics now booking)

/-- The behaviour of the storage collaborator as observed by the `/test`
diagnostics route: the `from database import db` probe either fails to
import, raises some other exception, yields an uninitialized `None` handle,
or yields a handle with an optional name whose collection listing either
returns names or raises. -/
inductive DBProbe where
  | importError
  | importRaises (msg : String)
  | dbNone
  | dbSome (name : Option String) (listCols : Except String (List String))
deriving Repr

/-- The diagnostic object returned by `GET /test`. -/
structure DiagResp where
  backend : String
  database : String
  database_url : String
  database_name : String
  connection_status : String
  collections : List String
deriving DecidableEq, Repr

/-- Embedding of the `/test` handler `test_database` (lines 30–72 of
`main.py`): every probe failure is caught and rendered as text in the
`database` field, the `collections` list is capped at 10 names, and the two
env-presence fields are overwritten at the end from the environment flags
`urlSet`/`nameSet`. -/
def test_database (probe : DBProbe) (urlSet nameSet : Bool) : DiagResp :=
  let base : DiagResp :=
    { backend := "✅ Running", database := "❌ Not Available",
      database_url := "", database_name := "",
      connection_status := "Not Connected", collections := [] }
  let afterTry : DiagResp :=
    match probe with
    | .importError =>
      { base with database := "❌ Database module not found (run enable-database first)" }
    | .importRaises msg =>
      { base with database := "❌ Error: " ++ msg.take 50 }
    | .dbNone =>
      { base with database := "⚠️  Available but not initialized" }
    | .dbSome nm lc =>
      let connected :=
        { base with database := "✅ Available",
                    database_url := "✅ Configured",
                    database_name := nm.getD "✅ Connected",
                    connection_status := "Connected" }
      match lc with
      | .ok cols =>
        { connected with database := "✅ Connected & Working",
                         collections := cols.take 10 }
      | .error e =>
        { connected with database := "⚠️  Connected but Error: " ++ e.take 50 }
  { afterTry with
    database_url := if urlSet then "✅ Set" else "❌ Not Set",
    database_name := if nameSet then "✅ Set" else "❌ Not Set" }

/-- The seven field names the `Booking` schema declares; every other payload
key is ignored by construction. -/
def knownKeys : List String :=
  ["name", "phone", "email", "service", "preferred_datetime", "notes", "status"]

/-- A payload restricted to the schema's declared keys. -/
def restrictKnown : Payload → Payload
  | [] => []
  | (k', w) :: rest =>
    if knownKeys.contains k' then (k', w) :: restrictKnown rest
    else restrictKnown rest

/-- The end-to-end example timestamp `2025-06-01T10:00:00`. -/
def janeDT : DateTime := ⟨2025, 6, 1, 10, 0, 0⟩

/-- The end-to-end example payload of the specification, with
`preferred_datetime` as ISO-8601 text. -/
def janePayload : Payload :=
  [("name", .str "Jane Doe"), ("phone", .str "1234567890"),
   ("email", .str "jane@example.com"), ("service", .str "Facials"),
   ("preferred_datetime", .str "2025-06-01T10:00:00")]

/-- The same payload with `preferred_datetime` as a typed timestamp. -/
def janePayloadTyped : Payload :=
  [("name", .str "Jane Doe"), ("phone", .str "1234567890"),
   ("email", .str "jane@example.com"), ("service", .str "Facials"),
   ("preferred_datetime", .dt janeDT)]

/-- The booking the example payload validates to. -/
def janeBooking : Booking :=
  { name := "Jane Doe", phone := "1234567890", email := "jane@example.com",
    service := "Facials", preferred_datetime := janeDT, notes := none,
    status := "pending" }

/-- The example payload extended with a client-supplied `status` key. -/
def payloadStatusConfirmed : Payload :=
  janePayload ++ [("status", .str "confirmed")]

/-- The example payload with the out-of-enumeration service `"Massage"`. -/
def payloadMassage : Payload :=
  [("name", .str "Jane Doe"), ("phone", .str "1234567890"),
   ("email", .str "jane@example.com"), ("service", .str "Massage"),
   ("preferred_datetime", .str "2025-06-01T10:00:00")]

/-- A storage collaborator that persists successfully with a fixed id. -/
def dbOk : Booking → Except String String := fun _ => .ok "id-1"

/-- A storage collaborator whose returned identifier reveals the `status`
field of the record it was asked to persist. -/
def dbStatusProbe : Booking → Except String String := fun b => .ok b.status

/-- A fixed wall-clock instant for concrete witnesses. -/
def wNow : DateTime := ⟨2025, 5, 1, 12, 0, 0⟩

/-- Does the character list begin with `nd`. -/
def swL : List Char → List Char → Bool
  | [], _ => true
  | _ :: _, [] => false
  | a :: as, b :: bs => a == b && swL as bs

/-- Does the character list contain `needle` as a contiguous run. -/
def hasSubL (needle : List Char) : List Char → Bool
  | [] => needle.isEmpty
  | c :: cs => swL needle (c :: cs) || hasSubL needle cs

/-- Does `hay` contain `needle` as a contiguous substring. -/
def hasSub (needle hay : String) : Bool :=
  hasSubL needle.data hay.data

/-! Helper lemmas (shared across claims). -/

theorem swL_self_append (nd c : List Char) : swL nd (nd ++ c) = true := by
  induction nd with
  | nil => rfl
  | cons a as ih => simp [swL, ih]

theorem hasSubL_mid (nd a c : List Char) : hasSubL nd (a ++ (nd ++ c)) = true := by
  induction a with
  | nil =>
    cases nd with
    | nil =>
      cases c with
      | nil => rfl
      | cons x xs => simp [hasSubL, swL]
    | cons x xs =>
      have h := swL_self_append (x :: xs) c
      rw [List.cons_append] at h
      simp [hasSubL, h]
  | cons y ys ih => simp [hasSubL, ih]

theorem hasSub_mid (a nd c : String) : hasSub nd (a ++ (nd ++ c)) = true := by
  unfold hasSub
  rw [String.data_append, String.data_append]
  exact hasSubL_mid _ _ _

theorem build_ics_decomp (n : DateTime) (b : Booking) :
    build_ics n b =
      icsHead b ++ (("DTSTAMP:" ++ (fmtDT n ++ "Z") ++ "\n") ++ icsTail b) := by
  apply String.ext
  unfold build_ics icsHead icsTail icsRest icsUid
  simp only [String.data_append, List.append_assoc]

theorem daysBeforeMonth_step (y m : Nat) (h : 1 ≤ m) :
    daysBeforeMonth y (m + 1) = daysBeforeMonth y m + daysInMonth y m := by
  obtain ⟨k, rfl⟩ : ∃ k, m = k + 1 := ⟨m - 1, by omega⟩
  rfl

set_option maxHeartbeats 1000000 in
theorem daysBeforeYear_succ (y : Nat) (h : 1 ≤ y) :
    daysBeforeYear (y + 1) = daysBeforeYear y + 365 + (if isLeap y then 1 else 0) := by
  unfold daysBeforeYear
  by_cases hl : isLeap y
  · rw [if_pos hl]
    unfold isLeap at hl
    omega
  · rw [if_neg hl]
    unfold isLeap at hl
    omega

theorem daysBeforeMonth_twelve (y : Nat) :
    daysBeforeMonth y 12 = 334 + (if isLeap y then 1 else 0) := by
  by_cases hl : isLeap y <;>
    simp [daysBeforeMonth, daysInMonth, hl]

theorem toOrd_nextDay (d : DateTime) (h : validDT d) :
    toOrd (nextDay d) = toOrd d + 1 := by
  obtain ⟨hy, hm1, hm2, hd1, hd2, _, _, _⟩ := h
  unfold nextDay
  by_cases h1 : d.day < daysInMonth d.year d.month
  · simp only [h1, if_pos, toOrd]
    omega
  · have hd : d.day = daysInMonth d.year d.month := by omega
    by_cases h2 : d.month < 12
    · simp only [h1, h2, if_neg, if_pos, not_false_iff, toOrd]
      rw [daysBeforeMonth_step d.year d.month hm1]
      omega
    · have hm : d.month = 12 := by omega
      simp only [h1, h2, if_neg, not_false_iff, toOrd]
      rw [hm] at hd ⊢
      rw [daysBeforeYear_succ d.year hy, daysBeforeMonth_twelve]
      have h31 : daysInMonth d.year 12 = 31 := by simp [daysInMonth]
      rw [h31] at hd
      simp only [daysBeforeMonth]
      omega

theorem lookupP_setKey (p : Payload) (k0 k : String) (v : Value) :
    lookupP (setKey p k0 v) k =
      (lookupP p k).map (fun w => if k = k0 then v else w) := by
  induction p with
  | nil => rfl
  | cons kv rest ih =>
    obtain ⟨k', w⟩ := kv
    by_cases h1 : k' = k0
    · subst h1
      by_cases h2 : k' = k
      · subst h2
        simp [setKey, lookupP]
      · simp [setKey, lookupP, h2, ih]
    · by_cases h2 : k' = k
      · subst h2
        simp [setKey, lookupP, h1, Ne.symm h1]
      · simp [setKey, lookupP, h1, h2, ih]

theorem lookupP_restrict (p : Payload) (k : String)
    (hk : k ∈ knownKeys) :
    lookupP (restrictKnown p) k = lookupP p k := by
  induction p with
  | nil => rfl
  | cons kv rest ih =>
    obtain ⟨k', w⟩ := kv
    by_cases h1 : k' ∈ knownKeys
    · by_cases h2 : k' = k
      · subst h2
        simp [restrictKnown, lookupP, h1]
      · simp [restrictKnown, lookupP, h1, h2, ih]
    · have h2 : ¬ k' = k := by
        intro he; subst he; exact h1 hk
      simp [restrictKnown, lookupP, h1, h2, ih]

theorem mkBooking_congr (p q : Payload)
    (h : ∀ k, k ∈ knownKeys → lookupP p k = lookupP q k) :
    mkBooking p = mkBooking q := by
  have h1 := h "name" (by decide)
  have h2 := h "phone" (by decide)
  have h3 := h "email" (by decide)
  have h4 := h "service" (by decide)
  have h5 := h "preferred_datetime" (by decide)
  have h6 := h "notes" (by decide)
  have h7 := h "status" (by decide)
  unfold mkBooking fieldErrors
  rw [h1, h2, h3, h4, h5, h6, h7]

theorem create_booking_congr (db : Booking → Except String String) (n : DateTime)
    (p q : Payload) (h : ∀ k, k ∈ knownKeys → lookupP p k = lookupP q k) :
    create_booking db n p = create_booking db n q := by
  have hsk : ∀ v : Value,
      mkBooking (setKey p "preferred_datetime" v) =
        mkBooking (setKey q "preferred_datetime" v) := by
    intro v
    apply mkBooking_congr
    intro k hk
    rw [lookupP_setKey, lookupP_setKey, h k hk]
  unfold create_booking coerceDT
  rw [h "preferred_datetime" (by decide)]
  cases hl : lookupP q "preferred_datetime" with
  | none =>
    dsimp only
    rw [mkBooking_congr p q h]
  | some v =>
    cases v with
    | dt d =>
      dsimp only
      rw [mkBooking_congr p q h]
    | str s =>
      dsimp only
      cases hp : fromisoformat s with
      | none => rfl
      | some d =>
        dsimp only
        rw [hsk (.dt d)]

theorem toSeconds_addOneHour (d : DateTime) (h : validDT d) :
    toSeconds (addOneHour d) = toSeconds d + 3600 := by
  unfold addOneHour
  by_cases h1 : d.hour + 1 < 24
  · simp only [h1, if_pos, toSeconds, toOrd]
    omega
  · have h23 : d.hour = 23 := by
      obtain ⟨_, _, _, _, _, hh, _, _⟩ := h
      omega
    have hnd := toOrd_nextDay d h
    have hmin : (nextDay d).minute = d.minute := by
      unfold nextDay; split
      · rfl
      · split <;> rfl
    have hsec : (nextDay d).second = d.second := by
      unfold nextDay; split
      · rfl
      · split <;> rfl
    rw [if_neg h1]
    have hexp : toSeconds { nextDay d with hour := 0 } =
        toOrd (nextDay d) * 86400 + 0 * 3600 +
          (nextDay d).minute * 60 + (nextDay d).second := rfl
    rw [hexp, hmin, hsec, hnd]
    unfold toSeconds
    omega

/-! The claims. -/

/-- C4: for every payload whose `preferred_datetime` field is a text string
that does not parse as ISO 8601, `POST /api/book` responds with client-error
status 400 and the fixed message `"Invalid preferred_datetime format. Use
ISO 8601."`, regardless of every other field (so schema validation is never
reached), of the wall clock, and of the persistence collaborator (which is
therefore never called). -/
theorem c4_invalid_datetime_text (p : Payload) (s : String)
    (db db' : Booking → Except String String) (n n' : DateTime)
    (hl : lookupP p "preferred_datetime" = some (.str s))
    (hp : fromisoformat s = none) :
    create_booking db n p =
      .badDate "Invalid preferred_datetime format. Use ISO 8601." ∧
    statusCode (create_booking db n p) = 400 ∧
    create_booking db n p = create_booking db' n' p := by
  have key : ∀ (db0 : Booking → Except String String) (n0 : DateTime),
      create_booking db0 n0 p =
        .badDate "Invalid preferred_datetime format. Use ISO 8601." := by
    intro db0 n0
    unfold create_booking coerceDT
    rw [hl]
    dsimp only
    rw [hp]
  refine ⟨key db n, ?_, ?_⟩
  · rw [key db n]; rfl
  · rw [key db n, key db' n']

/-- C4 witness: `preferred_datetime = "not-a-date"` is rejected with the
fixed 400 message even though every other required field is missing. -/
theorem c4_witness :
    create_booking dbOk wNow [("preferred_datetime", Value.str "not-a-date")] =
      .badDate "Invalid preferred_datetime format. Use ISO 8601." :=
  (c4_invalid_datetime_text [("preferred_datetime", Value.str "not-a-date")]
    "not-a-date" dbOk dbOk wNow wNow rfl rfl).1

/-- C8: for every validated booking, if the persistence call raises, the
endpoint responds with server-error status 500 whose detail wraps the
underlying failure message as `"Database error: " ++ msg`; the response
carries no invite and no identifier (the `dbError` outcome has no other
content), and the single failed insert is the only collaborator
interaction. -/
theorem c8_persistence_failure (p p2 : Payload) (b : Booking) (msg : String)
    (db : Booking → Except String String) (n : DateTime)
    (hc : coerceDT p = .ok p2) (hv : mkBooking p2 = .ok b)
    (hdb : db b = .error msg) :
    create_booking db n p = .dbError ("Database error: " ++ msg) ∧
    statusCode (create_booking db n p) = 500 := by
  have key : create_booking db n p = .dbError ("Database error: " ++ msg) := by
    unfold create_booking
    rw [hc]
    dsimp only
    rw [hv]
    dsimp only
    rw [hdb]
  exact ⟨key, by rw [key]; rfl⟩

/-- C8 witness: the end-to-end example payload with a collaborator that
raises `"boom"` yields the wrapped 500 detail. -/
theorem c8_witness :
    create_booking (fun _ => Except.error "boom") wNow janePayload =
      .dbError ("Database error: " ++ "boom") :=
  (c8_persistence_failure janePayload janePayloadTyped janeBooking "boom"
    (fun _ => Except.error "boom") wNow rfl rfl rfl).1

/-- C9: the `GET /test` diagnostics route returns its diagnostic object for
every behaviour of the storage collaborator — import failure, an exception
during the probe, an uninitialized handle, a connected handle whose
collection listing succeeds (capped at 10 names) or raises — rendering each
failure as descriptive text in the `database` field instead of failing the
request, and always reporting the two env-presence flags. -/
theorem c9_diagnostics_never_fail (p : DBProbe) (u m : Bool) :
    (test_database p u m).backend = "✅ Running" ∧
    (test_database p u m).database_url = (if u then "✅ Set" else "❌ Not Set") ∧
    (test_database p u m).database_name = (if m then "✅ Set" else "❌ Not Set") ∧
    (p = .importError →
      (test_database p u m).database =
        "❌ Database module not found (run enable-database first)") ∧
    (∀ msg, p = .importRaises msg →
      (test_database p u m).database = "❌ Error: " ++ msg.take 50) ∧
    (p = .dbNone →
      (test_database p u m).database = "⚠️  Available but not initialized") ∧
    (∀ nm cols, p = .dbSome nm (.ok cols) →
      (test_database p u m).database = "✅ Connected & Working" ∧
      (test_database p u m).collections = cols.take 10) ∧
    (∀ nm e, p = .dbSome nm (.error e) →
      (test_database p u m).database = "⚠️  Connected but Error: " ++ e.take 50) := by
  cases p with
  | importError => simp [test_database]
  | importRaises msg => simp [test_database]
  | dbNone => simp [test_database]
  | dbSome nm lc => cases lc <;> simp [test_database]

/-- C9 witness: a connected collaborator whose collection listing raises
`"boom"` is reported as text, not an error status. -/
theorem c9_witness :
    (test_database (.dbSome none (.error "boom")) true false).database =
      "⚠️  Connected but Error: " ++ "boom".take 50 :=
  ((c9_diagnostics_never_fail (.dbSome none (.error "boom"))
      true false).2.2.2.2.2.2.2) none "boom" rfl

/-- C10: unknown payload keys are silently ignored: the response to any
payload equals the response to the same payload restricted to the seven
declared schema keys, for every collaborator and wall clock. -/
theorem c10_unknown_keys_ignored (db : Booking → Except String String)
    (n : DateTime) (p : Payload) :
    create_booking db n p = create_booking db n (restrictKnown p) :=
  create_booking_congr db n p (restrictKnown p)
    (fun k hk => (lookupP_restrict p k hk).symm)

/-- C2 counterexample: the endpoint passes the whole payload to the
`Booking` constructor and `status` is a declared field, so the example
payload extended with `status: "confirmed"` is accepted and the persisted
record's status is `"confirmed"`, not the default `"pending"` — refuting
the claim that a client-supplied status key cannot change the constructed
record's status. -/
theorem c2_counterexample :
    create_booking dbStatusProbe wNow payloadStatusConfirmed =
      .success "confirmed"
        (build_ics wNow { janeBooking with status := "confirmed" }) ∧
    ({ janeBooking with status := "confirmed" } : Booking).status ≠ "pending" :=
  ⟨rfl, by decide⟩

/-- C2 amended: when the client payload carries no `status` key, the
persisted booking's status is the default `"pending"` (observed through a
collaborator that reports the status of the record it is asked to persist);
but the endpoint does forward a client-supplied `status` key to the
constructor. -/
theorem c2_amended_status_defaults_pending (p : Payload) (n : DateTime)
    (s ics : String)
    (hs : lookupP p "status" = none)
    (h : create_booking dbStatusProbe n p = .success s ics) :
    s = "pending" := by
  unfold create_booking at h
  cases hc : coerceDT p with
  | error msg => rw [hc] at h; simp at h
  | ok p2 =>
    rw [hc] at h
    dsimp only at h
    have hs2 : lookupP p2 "status" = none := by
      unfold coerceDT at hc
      cases hl : lookupP p "preferred_datetime" with
      | none =>
        rw [hl] at hc
        dsimp only at hc
        cases hc
        exact hs
      | some v =>
        cases v with
        | dt d =>
          rw [hl] at hc
          dsimp only at hc
          cases hc
          exact hs
        | str s' =>
          rw [hl] at hc
          dsimp only at hc
          cases hp : fromisoformat s' with
          | none => rw [hp] at hc; cases hc
          | some d =>
            rw [hp] at hc
            dsimp only at hc
            cases hc
            rw [lookupP_setKey, hs]
            rfl
    cases hv : mkBooking p2 with
    | error e => rw [hv] at h; simp at h
    | ok b =>
      rw [hv] at h
      dsimp only [dbStatusProbe] at h
      have hb : b.status = "pending" := by
        unfold mkBooking at hv
        cases hfe : fieldErrors p2 with
        | nil =>
          rw [hfe] at hv
          dsimp only at hv
          cases hv
          dsimp only
          rw [hs2]
          rfl
        | cons e es => rw [hfe] at hv; simp at hv
      rw [← hb]
      have := h
      simp only [BookResp.success.injEq] at this
      exact this.1.symm

/-- C2 amended witness at the example payload, which has no `status` key. -/
theorem c2_amended_witness :
    lookupP janePayload "status" = none ∧
    create_booking dbStatusProbe wNow janePayload =
      .success "pending" (build_ics wNow janeBooking) ∧
    ("pending" : String) = "pending" :=
  ⟨rfl, rfl,
    c2_amended_status_defaults_pending janePayload wNow "pending"
      (build_ics wNow janeBooking) rfl rfl⟩

/-- C6: the invite is deterministic in everything but the generation
timestamp: two runs of `build_ics` on the same booking produce the same
text before (`UID` line included) and after (`DTSTART`, `DTEND`, `SUMMARY`,
`DESCRIPTION`, `LOCATION` lines) the `DTSTAMP` line, and the `UID` value is
a function of the start timestamp and the booking's email only (the
formatter never receives the persisted store identifier). -/
theorem c6_ics_deterministic (b : Booking) (n n' : DateTime) :
    build_ics n b =
      icsHead b ++ (("DTSTAMP:" ++ (fmtDT n ++ "Z") ++ "\n") ++ icsTail b) ∧
    build_ics n' b =
      icsHead b ++ (("DTSTAMP:" ++ (fmtDT n' ++ "Z") ++ "\n") ++ icsTail b) ∧
    icsUid b = "booking-" ++ fmtDT b.preferred_datetime ++ "-" ++ b.email :=
  ⟨build_ics_decomp n b, build_ics_decomp n' b, rfl⟩

/-- C5: for every booking with a calendar-valid start timestamp, the invite's
`DTSTART` is the formatted start, its `DTEND` is the formatted start plus
one hour, and that successor really is exactly 3600 seconds later under the
calendar semantics of the timestamp arithmetic. -/
theorem c5_event_duration_one_hour (b : Booking) (n : DateTime)
    (h : validDT b.preferred_datetime) :
    build_ics n b =
      icsHead b ++ (("DTSTAMP:" ++ (fmtDT n ++ "Z") ++ "\n") ++
        ("DTSTART:" ++ fmtDT b.preferred_datetime ++ "\n" ++
          ("DTEND:" ++ fmtDT (addOneHour b.preferred_datetime) ++ "\n") ++
          icsRest b)) ∧
    toSeconds (addOneHour b.preferred_datetime) =
      toSeconds b.preferred_datetime + 3600 :=
  ⟨build_ics_decomp n b, toSeconds_addOneHour _ h⟩

/-- C5 witness at the end-to-end example booking. -/
theorem c5_witness :
    build_ics wNow janeBooking =
      icsHead janeBooking ++ (("DTSTAMP:" ++ (fmtDT wNow ++ "Z") ++ "\n") ++
        ("DTSTART:" ++ fmtDT janeBooking.preferred_datetime ++ "\n" ++
          ("DTEND:" ++ fmtDT (addOneHour janeBooking.preferred_datetime) ++ "\n") ++
          icsRest janeBooking)) ∧
    toSeconds (addOneHour janeBooking.preferred_datetime) =
      toSeconds janeBooking.preferred_datetime + 3600 :=
  c5_event_duration_one_hour janeBooking wNow (by decide)

/-- C1: posting the example payload (`Jane Doe`, `Facials`,
`2025-06-01T10:00:00`), assuming the persistence call returns an identifier
`bid ≠ ""`, yields the success response whose `booking_id` is that non-empty
identifier and whose invite text contains the lines
`DTSTART:20250601T100000` and `DTEND:20250601T110000`. -/
theorem c1_end_to_end (db : Booking → Except String String) (n : DateTime)
    (bid : String) (hdb : db janeBooking = .ok bid) (hbid : bid ≠ "") :
    create_booking db n janePayload = .success bid (build_ics n janeBooking) ∧
    statusCode (create_booking db n janePayload) = 200 ∧
    bid ≠ "" ∧
    hasSub "DTSTART:20250601T100000\n" (build_ics n janeBooking) = true ∧
    hasSub "DTEND:20250601T110000\n" (build_ics n janeBooking) = true := by
  have key : create_booking db n janePayload =
      .success bid (build_ics n janeBooking) := by
    unfold create_booking
    rw [show coerceDT janePayload = Except.ok janePayloadTyped from rfl]
    dsimp only
    rw [show mkBooking janePayloadTyped = Except.ok janeBooking from rfl]
    dsimp only
    rw [hdb]
  have htail : icsTail janeBooking =
      "DTSTART:20250601T100000\n" ++
        ("DTEND:20250601T110000\n" ++ icsRest janeBooking) := rfl
  have e1 : build_ics n janeBooking =
      (icsHead janeBooking ++ ("DTSTAMP:" ++ (fmtDT n ++ "Z") ++ "\n")) ++
        ("DTSTART:20250601T100000\n" ++
          ("DTEND:20250601T110000\n" ++ icsRest janeBooking)) := by
    rw [String.append_assoc, build_ics_decomp, htail]
  have e2 : build_ics n janeBooking =
      ((icsHead janeBooking ++ ("DTSTAMP:" ++ (fmtDT n ++ "Z") ++ "\n")) ++
        "DTSTART:20250601T100000\n") ++
        ("DTEND:20250601T110000\n" ++ icsRest janeBooking) := by
    rw [String.append_assoc]
    exact e1
  refine ⟨key, by rw [key]; rfl, hbid, ?_, ?_⟩
  · rw [e1]
    exact hasSub_mid _ _ _
  · rw [e2]
    exact hasSub_mid _ _ _

/-- C1 witness with a collaborator returning the identifier `"id-1"`. -/
theorem c1_witness :
    create_booking dbOk wNow janePayload =
      .success "id-1" (build_ics wNow janeBooking) ∧
    hasSub "DTSTART:20250601T100000\n" (build_ics wNow janeBooking) = true ∧
    hasSub "DTEND:20250601T110000\n" (build_ics wNow janeBooking) = true := by
  have h := c1_end_to_end dbOk wNow "id-1" rfl (by decide)
  exact ⟨h.1, h.2.2.2.1, h.2.2.2.2⟩

/-- C7: a payload carrying `preferred_datetime` as ISO-8601 text that parses
to `d` is handled exactly like the same payload carrying the typed timestamp
`d`: the responses are equal (same constructed booking, same persistence
call, same invite), and in particular the text form is never rejected with
the 400 bad-date error. -/
theorem c7_text_and_typed_datetime_agree (p : Payload) (s : String)
    (d : DateTime) (db : Booking → Except String String) (n : DateTime)
    (hl : lookupP p "preferred_datetime" = some (.str s))
    (hp : fromisoformat s = some d) :
    create_booking db n p =
      create_booking db n (setKey p "preferred_datetime" (.dt d)) ∧
    (∀ m, create_booking db n p ≠ .badDate m) := by
  have hq : lookupP (setKey p "preferred_datetime" (.dt d))
      "preferred_datetime" = some (.dt d) := by
    rw [lookupP_setKey, hl]
    simp
  have key : create_booking db n p =
      create_booking db n (setKey p "preferred_datetime" (.dt d)) := by
    unfold create_booking coerceDT
    rw [hl, hq]
    dsimp only
    rw [hp]
  refine ⟨key, ?_⟩
  intro m
  rw [key]
  unfold create_booking coerceDT
  rw [hq]
  dsimp only
  split
  · simp
  · split <;> simp

/-- C7 witness: the example payload in text form versus typed form. -/
theorem c7_witness :
    create_booking dbOk wNow janePayload =
      create_booking dbOk wNow
        (setKey janePayload "preferred_datetime" (.dt janeDT)) :=
  (c7_text_and_typed_datetime_agree janePayload "2025-06-01T10:00:00" janeDT
    dbOk wNow rfl rfl).1

/-- C3: whenever schema construction fails (after the date coercion step
succeeded), the endpoint responds 422 carrying exactly the aggregated
per-field error list — which is nonempty and contains one entry for every
violating field, `name`, `phone`, `email`, `service`, `preferred_datetime`,
`notes` or `status` alike, not just the first — and the response is
independent of the persistence collaborator and the wall clock, so the
persistence call never happens. -/
theorem c3_schema_validation_aggregates (p p2 : Payload)
    (errs : List (String × String))
    (db db' : Booking → Except String String) (n n' : DateTime)
    (hc : coerceDT p = .ok p2) (hv : mkBooking p2 = .error errs) :
    create_booking db n p = .validationErr errs ∧
    statusCode (create_booking db n p) = 422 ∧
    errs = fieldErrors p2 ∧ errs ≠ [] ∧
    (∀ t, vName (lookupP p2 "name") = .error t → ("name", t) ∈ errs) ∧
    (∀ t, vPhone (lookupP p2 "phone") = .error t → ("phone", t) ∈ errs) ∧
    (∀ t, vEmail (lookupP p2 "email") = .error t → ("email", t) ∈ errs) ∧
    (∀ t, vService (lookupP p2 "service") = .error t → ("service", t) ∈ errs) ∧
    (∀ t, vPD (lookupP p2 "preferred_datetime") = .error t →
      ("preferred_datetime", t) ∈ errs) ∧
    (∀ t, vNotes (lookupP p2 "notes") = .error t → ("notes", t) ∈ errs) ∧
    (∀ t, vStatus (lookupP p2 "status") = .error t → ("status", t) ∈ errs) ∧
    create_booking db n p = create_booking db' n' p := by
  have hfe : errs = fieldErrors p2 ∧ errs ≠ [] := by
    unfold mkBooking at hv
    cases hfe0 : fieldErrors p2 with
    | nil => rw [hfe0] at hv; simp at hv
    | cons e es =>
      rw [hfe0] at hv
      dsimp only at hv
      cases hv
      exact ⟨rfl, by simp⟩
  have key : ∀ (db0 : Booking → Except String String) (n0 : DateTime),
      create_booking db0 n0 p = .validationErr errs := by
    intro db0 n0
    unfold create_booking
    rw [hc]
    dsimp only
    rw [hv]
  refine ⟨key db n, by rw [key db n]; rfl, hfe.1, hfe.2,
    ?_, ?_, ?_, ?_, ?_, ?_, ?_, by rw [key db n, key db' n']⟩ <;>
  · intro t ht
    rw [hfe.1]
    unfold fieldErrors
    rw [ht]
    simp [eo]

/-- C3 witness: the example payload with `service = "Massage"` fails with a
422 whose error list names exactly the `service` field. -/
theorem c3_witness :
    create_booking dbOk wNow payloadMassage =
      .validationErr [("service", "literal_error")] ∧
    ("service", "literal_error") ∈ [(("service" : String), ("literal_error" : String))] := by
  have h := c3_schema_validation_aggregates payloadMassage
    (setKey payloadMassage "preferred_datetime" (.dt janeDT))
    [("service", "literal_error")] dbOk dbOk wNow wNow rfl rfl
  exact ⟨h.1, h.2.2.2.2.2.2.2.1 "literal_error" rfl⟩
